import Mathlib

/-!
Verification of curtin's `apply_net` command (src/curtin/commands/apply_net.py)
against its natural-language specification.

The embedding models:
  * line extraction used by both legacy-artifact reconcilers
    (`[f.strip() for f in contents.splitlines() if not f.startswith("#")]`);
  * `_maybe_remove_legacy_eth0` and `_disable_ipv6_privacy_extensions`
    as functions on a single-file filesystem state;
  * `detect_postup_alias` over an abstract version probe result;
  * the resolution phase of `apply_net` (with Python truthiness on the
    optional string arguments) and the exit-code behavior of
    `apply_net_main`.
-/

set_option linter.unusedVariables false

namespace ApplyNet

/-- Python `str.splitlines()` restricted to the line terminators that occur
in the files this command handles: a line break is `\r\n`, `\r` or `\n`, and
a trailing terminator does not produce a final empty line. -/
def splitlinesAux : List Char → List Char → List String
  | [], acc => if acc.isEmpty then [] else [String.mk acc.reverse]
  | '\r' :: '\n' :: rest, acc => String.mk acc.reverse :: splitlinesAux rest []
  | '\r' :: rest, acc => String.mk acc.reverse :: splitlinesAux rest []
  | '\n' :: rest, acc => String.mk acc.reverse :: splitlinesAux rest []
  | c :: rest, acc => splitlinesAux rest (c :: acc)

/-- `contents.splitlines()` on a whole string. -/
def pySplitlines (s : String) : List String :=
  splitlinesAux s.data []

/-- Python `str.strip()`: drop leading and trailing whitespace characters
(the ASCII whitespace that occurs in these files). -/
def pyStrip (s : String) : String :=
  String.mk
    (((s.data.dropWhile Char.isWhitespace).reverse.dropWhile
        Char.isWhitespace).reverse)

/-- Python `str.startswith(pre)`. -/
def pyStartsWith (s pre : String) : Bool :=
  pre.data.isPrefixOf s.data

/-- The line extraction both reconcilers perform:
`[f.strip() for f in contents.splitlines() if not f.startswith("#")]`.
The comprehension tests `f.startswith("#")` on the raw line and maps
`f.strip()` over the lines that pass the test. -/
def extractLines (contents : String) : List String :=
  (pySplitlines contents).filterMap
    (fun f => if pyStartsWith f "#" then none else some (pyStrip f))

/-- Modelled from the spec: step 4 of §4.4 as the claim reads it — split
into lines, strip each line, then discard the lines that (after that
stripping) begin with the comment marker. -/
def specExtractLines (contents : String) : List String :=
  ((pySplitlines contents).map pyStrip).filter
    (fun l => ¬ pyStartsWith l "#")

/-- Outcomes of one reconciliation, per the spec's `ReconciliationOutcome`. -/
inductive ReconcileOutcome
  | Removed
  | RemovedAndAnnotated
  | Preserved
  | Absent
  | Unreadable
deriving DecidableEq, Repr

/-- State of the single file a reconciler touches. -/
inductive FileState
  | absent
  | unreadable
  | present (contents : String)
deriving DecidableEq, Repr

/-- Errors a reconciler can raise before acting. -/
inductive ReconcileError
  | InvalidPath
deriving DecidableEq, Repr

/-- `known_contents` of `_maybe_remove_legacy_eth0`. -/
def eth0KnownContents : List String :=
  ["auto eth0", "iface eth0 inet dhcp"]

/-- Default `path` argument of `_maybe_remove_legacy_eth0`. -/
def eth0DefaultPath : String := "etc/network/interfaces.d/eth0.cfg"

/-- `_maybe_remove_legacy_eth0(target, path)`: no check on `path`; if the
file is absent return (warn and) `Absent`; if unreadable, log and return;
if the extracted lines equal `known_contents`, delete the file, else leave
it untouched. -/
def maybeRemoveLegacyEth0 (path : String) (fs : FileState) :
    FileState × ReconcileOutcome :=
  match fs with
  | .absent => (.absent, .Absent)
  | .unreadable => (.unreadable, .Unreadable)
  | .present c =>
      if extractLines c = eth0KnownContents then (.absent, .Removed)
      else (.present c, .Preserved)

/-- `known_contents` of `_disable_ipv6_privacy_extensions`. -/
def ipv6KnownContents : List String :=
  ["net.ipv6.conf.all.use_tempaddr = 2",
   "net.ipv6.conf.default.use_tempaddr = 2"]

/-- `curtin_contents`: the four comment lines joined with newlines that
replace a matched IPv6 privacy-extensions file. -/
def curtin_contents : String :=
  String.intercalate "\n"
    ["# IPv6 Privacy Extensions (RFC 4941)",
     "# Disabled by curtin",
     "# net.ipv6.conf.all.use_tempaddr = 2",
     "# net.ipv6.conf.default.use_tempaddr = 2"]

/-- Default `path` argument of `_disable_ipv6_privacy_extensions`. -/
def ipv6DefaultPath : String := "etc/sysctl.d/10-ipv6-privacy.conf"

/-- `_disable_ipv6_privacy_extensions(target, path)`: raises `ValueError`
if `path` starts with `/`; otherwise absent/unreadable are logged and
returned; a file whose extracted lines equal `known_contents` is deleted
and rewritten with `curtin_contents`; anything else is preserved. -/
def disableIpv6PrivacyExtensions (path : String) (fs : FileState) :
    Except ReconcileError (FileState × ReconcileOutcome) :=
  if pyStartsWith path "/" then .error .InvalidPath
  else match fs with
  | .absent => .ok (.absent, .Absent)
  | .unreadable => .ok (.unreadable, .Unreadable)
  | .present c =>
      if extractLines c = ipv6KnownContents then
        .ok (.present curtin_contents, .RemovedAndAnnotated)
      else .ok (.present c, .Preserved)

/-- The version dictionary `util.get_package_version` returns on success. -/
structure PkgVer where
  major : Nat
  minor : Nat
  micro : Nat
  semantic_version : Nat
deriving DecidableEq, Repr

/-- `detect_postup_alias(target)`: the probe either raises (`.error`),
returns no data (`.ok none`) or returns a version dictionary.  A raising
or empty probe is caught and gives `False`; otherwise the result is
`semantic_version < 806`. -/
def detect_postup_alias (probe : Except Unit (Option PkgVer)) : Bool :=
  match probe with
  | .error _ => false
  | .ok none => false
  | .ok (some pkg_ver) => decide (pkg_ver.semantic_version < 806)

/-- The canonical network model, tagged by the source it was resolved
from (`net.network_state.from_state_file` or `net.parse_net_config`). -/
inductive NetworkModel
  | fromStateFile (path : String)
  | fromNetConfig (path : String)
deriving DecidableEq, Repr

/-- Errors observable from `apply_net`'s resolution phase. -/
inductive ApplyNetError
  | MissingInput
  | MissingTarget
  | UnboundLocal
deriving DecidableEq, Repr

/-- Python truthiness of an optional string: `None` and `""` are falsy. -/
def pyTruthyOpt : Option String → Bool
  | none => false
  | some s => !decide (s = "")

/-- The resolution phase of `apply_net(target, network_state,
network_config, postup_alias)`: first the `is None`/`is None` missing-input
check, then the `target is None` check, then
`if network_state: ... elif network_config: ...` with Python truthiness;
when neither branch runs, `ns` is unbound and the subsequent
`net.render_network_state(..., network_state=ns, ...)` raises NameError,
modelled as `.error .UnboundLocal`.  The `.ok` value is the model handed
to the renderer. -/
def apply_net (target network_state network_config : Option String) :
    Except ApplyNetError NetworkModel :=
  if network_state = none ∧ network_config = none then .error .MissingInput
  else if target = none then .error .MissingTarget
  else if pyTruthyOpt network_state then
    match network_state with
    | some s => .ok (.fromStateFile s)
    | none => .error .UnboundLocal
  else if pyTruthyOpt network_config then
    match network_config with
    | some c => .ok (.fromNetConfig c)
    | none => .error .UnboundLocal
  else .error .UnboundLocal

/-- Exit code of `apply_net_main(args)` given the merged state values and
whether the inner `apply_net` call raises.  `target is None` exits 2;
`not network_config and not network_state` (truthiness) exits 2;
otherwise `apply_net` runs inside `try/except Exception`, any exception
is logged, and the function ends with `sys.exit(0)` either way. -/
def apply_net_main (target network_state network_config : Option String)
    (applyNetRaises : Bool) : Nat :=
  if target = none then 2
  else if !pyTruthyOpt network_config && !pyTruthyOpt network_state then 2
  else
    match (if applyNetRaises then Except.error () else Except.ok () :
        Except Unit Unit) with
    | .error _ => 0
    | .ok _ => 0

/-- A list comprehension with a guard is the filter of the guard followed
by the map of the expression. -/
theorem filterMap_guard (p : String → Bool) (g : String → String) :
    ∀ l : List String,
      l.filterMap (fun f => if p f then none else some (g f))
        = (l.filter (fun f => !p f)).map g := by
  intro l
  induction l with
  | nil => rfl
  | cons a l ih =>
      by_cases h : p a = true
      · simp [List.filterMap_cons, List.filter_cons, h, ih]
      · simp [List.filterMap_cons, List.filter_cons, h, ih]

/-- The default ipv6 sysctl path is relative, so the `ValueError` guard in
`_disable_ipv6_privacy_extensions` does not fire at the default call site. -/
theorem ipv6DefaultPath_relative : pyStartsWith ipv6DefaultPath "/" = false := by
  decide

/-- The annotation written by `_disable_ipv6_privacy_extensions` consists
only of comment lines, so a later extraction discards all of it. -/
theorem extract_curtin_contents : extractLines curtin_contents = [] := by
  decide

/-- C1: with valid target and state inputs, when the inner `apply_net`
call raises, `apply_net_main` catches the exception, logs it, and still
terminates with `sys.exit(0)` — the process exit code is 0, not non-zero
as the specification requires for fatal resolution/render failures. -/
theorem apply_net_main_exit_zero_on_raise :
    apply_net_main (some "/target") (some "/cfg/netstate.yml") none true = 0 := by
  decide

/-- C2 counterexample: `_maybe_remove_legacy_eth0` performs no
absolute-path check; called with a path starting with the root separator
and a matching file, it proceeds and deletes the file instead of failing
with `InvalidPath` before touching the filesystem. -/
theorem eth0_absolute_path_not_rejected :
    maybeRemoveLegacyEth0 "/etc/network/interfaces.d/eth0.cfg"
        (.present "auto eth0\niface eth0 inet dhcp\n")
      = (.absent, .Removed) := by
  decide

/-- C2 amended: only the IPv6 privacy-extensions reconciler rejects a path
that starts with the root separator (failing with `InvalidPath` before
touching the filesystem); the eth0 reconciler performs no such check and
behaves exactly as it does on its default relative path. -/
theorem invalid_path_check_ipv6_only (path : String) (fs : FileState)
    (h : pyStartsWith path "/" = true) :
    disableIpv6PrivacyExtensions path fs = .error .InvalidPath ∧
    maybeRemoveLegacyEth0 path fs = maybeRemoveLegacyEth0 eth0DefaultPath fs := by
  exact ⟨by simp [disableIpv6PrivacyExtensions, h], rfl⟩

/-- C2 amended, witness at a concrete absolute path. -/
theorem invalid_path_check_ipv6_only_witness :
    disableIpv6PrivacyExtensions "/etc/sysctl.d/10-ipv6-privacy.conf" .absent
        = .error .InvalidPath ∧
    maybeRemoveLegacyEth0 "/etc/sysctl.d/10-ipv6-privacy.conf" .absent
        = maybeRemoveLegacyEth0 eth0DefaultPath .absent :=
  invalid_path_check_ipv6_only "/etc/sysctl.d/10-ipv6-privacy.conf" .absent
    (by decide)

/-- C3: on a file whose extracted lines equal the expected lines, the
eth0 reconciler (Delete policy) removes the file and returns `Removed`,
and the IPv6 privacy-extensions reconciler (DeleteAndAnnotate policy)
leaves a file containing exactly the four-line annotation text and
returns `RemovedAndAnnotated`. -/
theorem reconcile_match_policies (c1 c2 : String)
    (h1 : extractLines c1 = eth0KnownContents)
    (h2 : extractLines c2 = ipv6KnownContents) :
    maybeRemoveLegacyEth0 eth0DefaultPath (.present c1) = (.absent, .Removed) ∧
    disableIpv6PrivacyExtensions ipv6DefaultPath (.present c2)
      = .ok (.present curtin_contents, .RemovedAndAnnotated) := by
  constructor
  · simp [maybeRemoveLegacyEth0, h1]
  · simp [disableIpv6PrivacyExtensions, ipv6DefaultPath_relative, h2]

/-- C3 witness on the shipped legacy file bodies. -/
theorem reconcile_match_policies_witness :
    maybeRemoveLegacyEth0 eth0DefaultPath
        (.present "auto eth0\niface eth0 inet dhcp\n") = (.absent, .Removed) ∧
    disableIpv6PrivacyExtensions ipv6DefaultPath
        (.present
          "net.ipv6.conf.all.use_tempaddr = 2\nnet.ipv6.conf.default.use_tempaddr = 2\n")
      = .ok (.present curtin_contents, .RemovedAndAnnotated) :=
  reconcile_match_policies _ _ (by decide) (by decide)

/-- C4: on a file whose extracted lines differ from the respective
artifact's expected lines, that reconciler returns `Preserved` and leaves
the file contents byte-for-byte unchanged, performing no delete and no
write — each conjunct only assumes the mismatch against its own
artifact's lines. -/
theorem reconcile_mismatch_preserves (c1 c2 : String)
    (h1 : extractLines c1 ≠ eth0KnownContents)
    (h2 : extractLines c2 ≠ ipv6KnownContents) :
    maybeRemoveLegacyEth0 eth0DefaultPath (.present c1)
      = (.present c1, .Preserved) ∧
    disableIpv6PrivacyExtensions ipv6DefaultPath (.present c2)
      = .ok (.present c2, .Preserved) := by
  constructor
  · simp [maybeRemoveLegacyEth0, h1]
  · simp [disableIpv6PrivacyExtensions, ipv6DefaultPath_relative, h2]

/-- C4 witness on the crossed-over file bodies: the eth0 reconciler
preserves a file holding the ipv6 sysctl directives, and the ipv6
reconciler preserves a file holding the eth0 stanza. -/
theorem reconcile_mismatch_preserves_witness :
    maybeRemoveLegacyEth0 eth0DefaultPath
        (.present
          "net.ipv6.conf.all.use_tempaddr = 2\nnet.ipv6.conf.default.use_tempaddr = 2\n")
      = (.present
          "net.ipv6.conf.all.use_tempaddr = 2\nnet.ipv6.conf.default.use_tempaddr = 2\n",
         .Preserved) ∧
    disableIpv6PrivacyExtensions ipv6DefaultPath
        (.present "auto eth0\niface eth0 inet dhcp\n")
      = .ok (.present "auto eth0\niface eth0 inet dhcp\n", .Preserved) :=
  reconcile_mismatch_preserves
    "net.ipv6.conf.all.use_tempaddr = 2\nnet.ipv6.conf.default.use_tempaddr = 2\n"
    "auto eth0\niface eth0 inet dhcp\n"
    (by decide) (by decide)

/-- C5 counterexample: the comprehension tests `startswith("#")` on the
raw line, before stripping, so a comment line indented by whitespace is
kept (stripped) rather than discarded as the claim's recipe requires. -/
theorem extract_indented_comment_kept :
    extractLines "  # c" ≠ specExtractLines "  # c" := by
  decide

/-- C5 amended: the extracted content lines equal the file split into
lines, with every line that begins with the comment marker before any
stripping discarded, and each remaining line stripped of leading and
trailing whitespace, order preserved. -/
theorem extractLines_characterization (contents : String) :
    extractLines contents
      = ((pySplitlines contents).filter
            (fun f => !pyStartsWith f "#")).map pyStrip := by
  unfold extractLines
  exact filterMap_guard (fun f => pyStartsWith f "#") pyStrip _

/-- C6: both reconcilers are idempotent on the filesystem state: running
one twice from any initial file state (including the DeleteAndAnnotate
policy, whose annotation is all comment lines) leaves the same final
state as running it once. -/
theorem reconcile_idempotent (fs : FileState) :
    (maybeRemoveLegacyEth0 eth0DefaultPath
        (maybeRemoveLegacyEth0 eth0DefaultPath fs).1).1
      = (maybeRemoveLegacyEth0 eth0DefaultPath fs).1 ∧
    (∀ fs1 r1, disableIpv6PrivacyExtensions ipv6DefaultPath fs = .ok (fs1, r1) →
      ∃ r2, disableIpv6PrivacyExtensions ipv6DefaultPath fs1 = .ok (fs1, r2)) := by
  constructor
  · cases fs with
    | absent => rfl
    | unreadable => rfl
    | present c =>
        by_cases h : extractLines c = eth0KnownContents
        · simp [maybeRemoveLegacyEth0, h]
        · simp [maybeRemoveLegacyEth0, h]
  · intro fs1 r1 h1
    cases fs with
    | absent =>
        simp [disableIpv6PrivacyExtensions, ipv6DefaultPath_relative] at h1
        obtain ⟨rfl, rfl⟩ := h1
        exact ⟨.Absent, by
          simp [disableIpv6PrivacyExtensions, ipv6DefaultPath_relative]⟩
    | unreadable =>
        simp [disableIpv6PrivacyExtensions, ipv6DefaultPath_relative] at h1
        obtain ⟨rfl, rfl⟩ := h1
        exact ⟨.Unreadable, by
          simp [disableIpv6PrivacyExtensions, ipv6DefaultPath_relative]⟩
    | present c =>
        by_cases h : extractLines c = ipv6KnownContents
        · simp [disableIpv6PrivacyExtensions, ipv6DefaultPath_relative, h] at h1
          obtain ⟨rfl, rfl⟩ := h1
          refine ⟨.Preserved, ?_⟩
          simp [disableIpv6PrivacyExtensions, ipv6DefaultPath_relative,
            extract_curtin_contents, ipv6KnownContents]
        · simp [disableIpv6PrivacyExtensions, ipv6DefaultPath_relative, h] at h1
          obtain ⟨rfl, rfl⟩ := h1
          refine ⟨.Preserved, ?_⟩
          simp [disableIpv6PrivacyExtensions, ipv6DefaultPath_relative, h]

/-- C6 witness: one concrete run of each conjunct, starting from the
shipped ipv6 sysctl body. -/
theorem reconcile_idempotent_witness :
    (maybeRemoveLegacyEth0 eth0DefaultPath
        (maybeRemoveLegacyEth0 eth0DefaultPath
          (.present "auto eth0\niface eth0 inet dhcp\n")).1).1
      = (maybeRemoveLegacyEth0 eth0DefaultPath
          (.present "auto eth0\niface eth0 inet dhcp\n")).1 ∧
    ∃ r2, disableIpv6PrivacyExtensions ipv6DefaultPath
        (.present curtin_contents) = .ok (.present curtin_contents, r2) :=
  ⟨(reconcile_idempotent (.present "auto eth0\niface eth0 inet dhcp\n")).1,
   (reconcile_idempotent
      (.present
        "net.ipv6.conf.all.use_tempaddr = 2\nnet.ipv6.conf.default.use_tempaddr = 2\n")).2
     (.present curtin_contents) .RemovedAndAnnotated (by rfl)⟩

/-- C7: `detect_postup_alias` is total (never raises): on a successful
probe it returns `true` exactly when the semantic version is strictly
below 806, and on a raising probe or a probe returning no data it
returns `false`. -/
theorem detect_postup_alias_spec (pkg_ver : PkgVer) (e : Unit) :
    (detect_postup_alias (.ok (some pkg_ver)) = true
        ↔ pkg_ver.semantic_version < 806) ∧
    detect_postup_alias (.error e) = false ∧
    detect_postup_alias (.ok none) = false := by
  refine ⟨?_, rfl, rfl⟩
  simp [detect_postup_alias]

/-- C8: with both the state file and the declarative config absent,
`apply_net` fails with the missing-input error before any network model
is produced or handed to the renderer, for every target. -/
theorem apply_net_missing_input (target : Option String) :
    apply_net target none none = .error .MissingInput := by
  simp [apply_net]

/-- C9: a non-null but falsy (empty-string) `network_state` with a null
`network_config` passes the `is None` missing-input check, but neither
resolution branch runs, so the call fails at the render step with the
unbound-variable error instead of `MissingInput`. -/
theorem apply_net_empty_state_unbound (t : String) :
    apply_net (some t) (some "") none = .error .UnboundLocal ∧
    apply_net (some t) (some "") none ≠ .error .MissingInput := by
  constructor
  · simp [apply_net, pyTruthyOpt]
  · simp [apply_net, pyTruthyOpt]

/-- C10: when both inputs are supplied and truthy, `apply_net` resolves
the network model from the state file only — the result is the model
deserialized from `network_state`, for every value of `network_config`,
so the config file is never read. -/
theorem apply_net_state_precedence (t s c : String)
    (hs : s ≠ "") (hc : c ≠ "") :
    apply_net (some t) (some s) (some c) = .ok (.fromStateFile s) := by
  simp [apply_net, pyTruthyOpt, hs]

/-- C10 witness at concrete paths. -/
theorem apply_net_state_precedence_witness :
    apply_net (some "/tgt") (some "/cfg/netstate.yml") (some "/cfg/net.yml")
      = .ok (.fromStateFile "/cfg/netstate.yml") :=
  apply_net_state_precedence "/tgt" "/cfg/netstate.yml" "/cfg/net.yml"
    (by decide) (by decide)

end ApplyNet
